import Mathlib

/-!
Shallow embedding of the investor dashboard core (binding workflow and
trade-ledger aggregation) of the repository under verification.

The embedded code is the `InvestorDashboard` component: its
`handleBindingRequest`, `fetchTraderData` and `checkExistingBinding`
logic together with the backing-store behaviour they rely on (trader
lookup by code, binding insert guarded by a uniqueness constraint on
`investor_id`, trade query ordered by `created_at` descending).

Numeric trade fields (price, quantity, profit and loss) are JS numbers in
the source; they are embedded as exact rationals, applied uniformly.
Strings from the source are embedded as lists of characters so that the
JS `trim` and `toUpperCase` operations used by the code are explicit
executable functions.
-/

namespace InvestorDashboard

/-- Whitespace test covering the characters relevant to the trader-code
input; used to model JS `String.prototype.trim`. -/
def isWs (c : Char) : Bool := c = ' ' || c = '\t' || c = '\n' || c = '\r'

/-- Model of JS `String.prototype.trim`: drop leading and trailing
whitespace. -/
def jsTrim (s : List Char) : List Char :=
  ((s.dropWhile isWs).reverse.dropWhile isWs).reverse

/-- Model of JS `String.prototype.toUpperCase` on a single character,
restricted to the ASCII letters (the alphabet of trader codes). -/
def jsCharToUpper (c : Char) : Char :=
  match c with
  | 'a' => 'A' | 'b' => 'B' | 'c' => 'C' | 'd' => 'D' | 'e' => 'E' | 'f' => 'F'
  | 'g' => 'G' | 'h' => 'H' | 'i' => 'I' | 'j' => 'J' | 'k' => 'K' | 'l' => 'L'
  | 'm' => 'M' | 'n' => 'N' | 'o' => 'O' | 'p' => 'P' | 'q' => 'Q' | 'r' => 'R'
  | 's' => 'S' | 't' => 'T' | 'u' => 'U' | 'v' => 'V' | 'w' => 'W' | 'x' => 'X'
  | 'y' => 'Y' | 'z' => 'Z'
  | other => other

/-- Model of JS `String.prototype.toUpperCase` on a whole string. -/
def jsToUpper (s : List Char) : List Char := s.map jsCharToUpper

/-- User role, as stored in the `users` table. -/
inductive Role
  | trader
  | investor
  deriving DecidableEq

/-- Row of the `users` table (the fields this core reads). -/
structure User where
  id : Nat
  role : Role
  username : List Char
  trader_uid : List Char
  deriving DecidableEq

/-- Persisted binding status (`status` column of `bindings`; the database
default on insert is `pending`). -/
inductive BindingStatus
  | pending
  | approved
  deriving DecidableEq

/-- Row of the `bindings` table. -/
structure Binding where
  investor_id : Nat
  trader_id : Nat
  status : BindingStatus
  deriving DecidableEq

/-- Row of the `trades` table (the fields this core reads).
`profit_loss` is nullable: absent for open positions. -/
structure Trade where
  id : Nat
  user_id : Nat
  price : Rat
  quantity : Rat
  profit_loss : Option Rat
  created_at : Nat
  deriving DecidableEq

/-- The backing store state: the three tables this core queries. -/
structure DB where
  users : List User
  bindings : List Binding
  trades : List Trade
  deriving DecidableEq

/-- The derived statistics computed by `fetchTraderData` (the
`traderStats` component state). -/
structure TraderStats where
  totalTrades : Nat
  totalValue : Rat
  totalPnL : Rat
  deriving DecidableEq

/-- The investor-visible binding state of the dashboard (`bindingStatus`
component state): `none` is the implicit state when no row exists. -/
inductive BindingView
  | none
  | pending
  | approved
  deriving DecidableEq

/-- Component state of `InvestorDashboard` (the pieces touched by the
embedded logic). -/
structure DashState where
  traderUid : List Char
  boundTrader : Option User
  bindingStatus : BindingView
  traderStats : TraderStats
  recentTrades : List Trade
  deriving DecidableEq

/-- Initial component state: empty input, no bound trader, implicit
`none` binding state, all-zero stats, no recent trades. -/
def initState : DashState :=
  { traderUid := []
    boundTrader := Option.none
    bindingStatus := BindingView.none
    traderStats := { totalTrades := 0, totalValue := 0, totalPnL := 0 }
    recentTrades := [] }

/-- Aggregation pass of `fetchTraderData` over the retrieved trades:
`totalTrades` is `trades.length`, `totalValue` folds
`sum + trade.price * trade.quantity` from 0, `totalPnL` folds
`sum + (trade.profit_loss || 0)` from 0. -/
def computeTraderStats (trades : List Trade) : TraderStats :=
  { totalTrades := trades.length
    totalValue := trades.foldl (fun sum trade => sum + trade.price * trade.quantity) 0
    totalPnL := trades.foldl (fun sum trade => sum + trade.profit_loss.getD 0) 0 }

/-- Comparison used by the trade query: `created_at` descending. -/
def createdDesc (a b : Trade) : Bool := decide (b.created_at ≤ a.created_at)

/-- The trade query issued by `fetchTraderData`: all rows of `trades`
with `user_id = traderId`, ordered by `created_at` descending. -/
def fetchTrades (db : DB) (traderId : Nat) : List Trade :=
  (db.trades.filter (fun t => t.user_id == traderId)).mergeSort createdDesc

/-- Transport failure of a backing-store query (store unreachable or the
query failed). -/
structure TransportError where
  message : String
  deriving DecidableEq

/-- State update performed by `fetchTraderData` given the response of the
trade query. On success it stores the computed stats and the first five
trades (`trades.slice(0, 5)`); on a transport failure the error is only
logged (`console.error`) and the state is left unchanged, so the
component still renders. -/
def fetchTraderData (resp : Except TransportError (List Trade))
    (s : DashState) : DashState :=
  match resp with
  | Except.error _ => s
  | Except.ok trades =>
      { s with
        traderStats := computeTraderStats trades
        recentTrades := trades.take 5 }

/-- Run of `fetchTraderData` against the backing store when the trade query
succeeds: the response is the ordered trade list for `traderId`. -/
def fetchTraderDataOk (db : DB) (traderId : Nat) (s : DashState) : DashState :=
  fetchTraderData (Except.ok (fetchTrades db traderId)) s

/-- Error returned by the backing store for a failed insert; `code` is
the SQLSTATE string (`23505` is unique-constraint violation). -/
structure PgError where
  code : String
  message : String
  deriving DecidableEq

/-- Outcome of a `handleBindingRequest` call, one per toast branch of the
source: success, the empty-input validation toast, the trader-not-found
toast, the already-requested toast (insert error code 23505), and the
generic error toast for any other insert error (rethrown and caught). -/
inductive Outcome
  | success
  | validationError
  | notFoundError
  | duplicateRequestError
  | transportError
  deriving DecidableEq

/-- Network requests issued by `handleBindingRequest`, in order: the
trader lookup query and the binding insert. -/
inductive Query
  | lookupTrader (code : List Char)
  | insertBinding (trader_id : Nat) (investor_id : Nat)
  deriving DecidableEq

/-- Rows of `users` matching the trader lookup query
`trader_uid = code AND role = trader`. -/
def usersMatching (db : DB) (code : List Char) : List User :=
  db.users.filter (fun u => u.trader_uid == code && u.role == Role.trader)

/-- Semantics of a `maybeSingle` query result: no row gives `none`, one
row gives that row, more than one row is an error. -/
def maybeSingle {α : Type} (l : List α) : Except Unit (Option α) :=
  match l with
  | [] => Except.ok Option.none
  | [a] => Except.ok (some a)
  | _ :: _ :: _ => Except.error ()

/-- Normalization applied to the entered code before the lookup:
`traderUid.trim().toUpperCase()`. -/
def normalizeCode (input : List Char) : List Char := jsToUpper (jsTrim input)

/-- The trader lookup performed by `handleBindingRequest`: match the
normalized code against `users` with role `trader`, via `maybeSingle`. -/
def lookupTrader (db : DB) (input : List Char) : Except Unit (Option User) :=
  maybeSingle (usersMatching db (normalizeCode input))

/-- The binding insert as executed by the backing store: the uniqueness
constraint over `investor_id` rejects the row with SQLSTATE 23505 when
the investor already has a binding, otherwise the row is stored with the
default status `pending`. -/
def dbInsertBinding (db : DB) (trader_id investor_id : Nat) : Except PgError DB :=
  if db.bindings.any (fun b => b.investor_id == investor_id) then
    Except.error { code := "23505", message := "duplicate key value violates unique constraint" }
  else
    Except.ok { db with
      bindings := db.bindings ++
        [{ investor_id := investor_id, trader_id := trader_id, status := BindingStatus.pending }] }

/-- Result of one `handleBindingRequest` call: the outcome surfaced to
the user, the store state afterwards, the component state afterwards,
and the trace of network requests issued. -/
structure ReqResult where
  outcome : Outcome
  db : DB
  state : DashState
  trace : List Query
  deriving DecidableEq

/-- The `handleBindingRequest` handler. `investorId` is `profile.id`.
`lookupErr` injects a failure of the lookup query (the source folds it
into the not-found branch via `if (traderError || !trader)`); `insertErr`
injects an environment failure of the insert in place of reaching the
store. Control flow follows the source: empty-after-trim input returns
the validation toast before any query; an unresolved or failed lookup
returns the not-found toast; an insert error with code 23505 returns the
already-requested toast; any other insert error is rethrown and caught
by the generic handler; on success the component sets the bound trader,
sets `bindingStatus` to `pending` and clears the input. -/
def handleBindingRequest (db : DB) (s : DashState) (investorId : Nat)
    (lookupErr : Bool) (insertErr : Option PgError) : ReqResult :=
  if (jsTrim s.traderUid).isEmpty then
    { outcome := Outcome.validationError, db := db, state := s, trace := [] }
  else
    let code := normalizeCode s.traderUid
    let traderRes : Except Unit (Option User) :=
      if lookupErr then Except.error () else maybeSingle (usersMatching db code)
    match traderRes with
    | Except.error _ =>
        { outcome := Outcome.notFoundError, db := db, state := s,
          trace := [Query.lookupTrader code] }
    | Except.ok Option.none =>
        { outcome := Outcome.notFoundError, db := db, state := s,
          trace := [Query.lookupTrader code] }
    | Except.ok (some trader) =>
        let insRes : Except PgError DB :=
          match insertErr with
          | some e => Except.error e
          | Option.none => dbInsertBinding db trader.id investorId
        match insRes with
        | Except.error e =>
            if e.code == "23505" then
              { outcome := Outcome.duplicateRequestError, db := db, state := s,
                trace := [Query.lookupTrader code, Query.insertBinding trader.id investorId] }
            else
              { outcome := Outcome.transportError, db := db, state := s,
                trace := [Query.lookupTrader code, Query.insertBinding trader.id investorId] }
        | Except.ok db2 =>
            { outcome := Outcome.success, db := db2,
              state := { s with
                boundTrader := some trader
                bindingStatus := BindingView.pending
                traderUid := [] },
              trace := [Query.lookupTrader code, Query.insertBinding trader.id investorId] }

/-- Example trader row used to instantiate the theorems on concrete data. -/
def exTrader : User :=
  { id := 1, role := Role.trader, username := "alice".data, trader_uid := "ABC12345".data }

/-- Component state with a given entered trader code. -/
def exState (input : List Char) : DashState := { initState with traderUid := input }

/-- Store with one trader and no bindings. -/
def exDbFree : DB := { users := [exTrader], bindings := [], trades := [] }

/-- Store with one trader and an existing binding for investor 7. -/
def exDbBound : DB :=
  { users := [exTrader]
    bindings := [{ investor_id := 7, trader_id := 1, status := BindingStatus.pending }]
    trades := [] }

/-- Store with one trade that belongs to trader 1 and one that does not. -/
def exDbTrades : DB :=
  { users := [exTrader]
    bindings := []
    trades :=
      [{ id := 10, user_id := 1, price := 100, quantity := 2, profit_loss := some 10, created_at := 3 },
       { id := 11, user_id := 2, price := 7, quantity := 1, profit_loss := Option.none, created_at := 4 }] }

/-- Folding addition of `f` over a list starting from `a` is `a` plus the
sum of the mapped list. -/
theorem foldl_add_map_sum {α : Type} (f : α → Rat) (l : List α) (a : Rat) :
    l.foldl (fun s x => s + f x) a = a + (l.map f).sum := by
  induction l generalizing a with
  | nil => simp
  | cons x xs ih => simp [ih, add_assoc]

/-- C2: for every trader ledger, `computeTraderStats` returns
`totalTrades` equal to the count of retrieved trades, `totalValue` equal
to the sum of `price * quantity` over all trades, and `totalPnL` equal to
the sum of `profit_loss` with an absent value contributing zero; on the
ledger with trades (price 100, quantity 2, pnl +10) and (price 50,
quantity 1, pnl -5) it returns totalTrades 2, totalValue 250,
totalPnL 5. -/
theorem computeTraderStats_totals (trades : List Trade) :
    (computeTraderStats trades).totalTrades = trades.length ∧
    (computeTraderStats trades).totalValue =
      (trades.map (fun t => t.price * t.quantity)).sum ∧
    (computeTraderStats trades).totalPnL =
      (trades.map (fun t => t.profit_loss.getD 0)).sum ∧
    computeTraderStats
        [{ id := 1, user_id := 1, price := 100, quantity := 2,
           profit_loss := some 10, created_at := 2 },
         { id := 2, user_id := 1, price := 50, quantity := 1,
           profit_loss := some (-5), created_at := 1 }] =
      { totalTrades := 2, totalValue := 250, totalPnL := 5 } := by
  refine ⟨rfl, foldl_add_map_sum _ trades 0 |>.trans (by simp),
    foldl_add_map_sum _ trades 0 |>.trans (by simp), ?_⟩
  simp only [computeTraderStats, List.foldl, List.length]
  norm_num

/-- C7: over an empty ledger (no trades retrieved for the trader) the
dashboard load yields all-zero stats and an empty recent list. -/
theorem fetchTraderDataOk_empty_ledger (db : DB) (tid : Nat)
    (h : db.trades.filter (fun t => t.user_id == tid) = []) :
    fetchTrades db tid = [] ∧
    (fetchTraderDataOk db tid initState).traderStats =
      { totalTrades := 0, totalValue := 0, totalPnL := 0 } ∧
    (fetchTraderDataOk db tid initState).recentTrades = [] := by
  have hf : fetchTrades db tid = [] := by
    unfold fetchTrades
    rw [h]
    simp
  refine ⟨hf, ?_, ?_⟩ <;>
    simp [fetchTraderDataOk, fetchTraderData, hf, computeTraderStats]

/-- Witness for C7: in a store whose only trade belongs to another user,
trader 1 has an empty ledger and loads all-zero stats and empty recent
trades. -/
theorem fetchTraderDataOk_empty_ledger_witness :
    fetchTrades exDbBound 1 = [] ∧
    (fetchTraderDataOk exDbBound 1 initState).traderStats =
      { totalTrades := 0, totalValue := 0, totalPnL := 0 } ∧
    (fetchTraderDataOk exDbBound 1 initState).recentTrades = [] :=
  fetchTraderDataOk_empty_ledger exDbBound 1 (by decide)

/-- C9: a transport failure of the trade query leaves the component state
exactly as it was — in particular, on the initial state the caller still
holds the renderable empty-stats state (zero totals, empty recent) — and
the failure is not propagated: `fetchTraderData` returns a state rather
than raising. -/
theorem fetchTraderData_transport_degrades (e : TransportError) (s : DashState) :
    fetchTraderData (Except.error e) s = s ∧
    (fetchTraderData (Except.error e) initState).traderStats =
      { totalTrades := 0, totalValue := 0, totalPnL := 0 } ∧
    (fetchTraderData (Except.error e) initState).recentTrades = [] :=
  ⟨rfl, rfl, rfl⟩

/-- The trade-query comparison is transitive. -/
theorem createdDesc_trans (a b c : Trade) :
    createdDesc a b = true → createdDesc b c = true → createdDesc a c = true := by
  simp only [createdDesc, decide_eq_true_eq]
  omega

/-- The trade-query comparison is total. -/
theorem createdDesc_total (a b : Trade) : (createdDesc a b || createdDesc b a) = true := by
  simp only [createdDesc, Bool.or_eq_true, decide_eq_true_eq]
  omega

/-- C5: the recent list shown by the dashboard is the first five trades
of the creation-timestamp-descending ordering of the ledger (all of them
when fewer than five exist), hence has at most five entries and is a
prefix of the descending-ordered full ledger; the full retrieved ledger
is sorted descending by creation timestamp and is a permutation of the
trades owned by the trader. -/
theorem recentTrades_take_five (db : DB) (tid : Nat) (s : DashState) :
    (fetchTraderDataOk db tid s).recentTrades = (fetchTrades db tid).take 5 ∧
    (fetchTraderDataOk db tid s).recentTrades.length ≤ 5 ∧
    (fetchTraderDataOk db tid s).recentTrades <+: fetchTrades db tid ∧
    ((fetchTrades db tid).length ≤ 5 →
      (fetchTraderDataOk db tid s).recentTrades = fetchTrades db tid) ∧
    (fetchTrades db tid).Pairwise (fun a b => b.created_at ≤ a.created_at) ∧
    (fetchTrades db tid).Perm (db.trades.filter (fun t => t.user_id == tid)) := by
  refine ⟨rfl, ?_, List.take_prefix 5 _, fun h => List.take_of_length_le h, ?_, ?_⟩
  · show ((fetchTrades db tid).take 5).length ≤ 5
    rw [List.length_take]
    exact inf_le_left
  · exact (List.sorted_mergeSort createdDesc_trans createdDesc_total _).imp
      (fun h => by simpa [createdDesc] using h)
  · exact List.mergeSort_perm _ _

/-- Witness for C5: on a store where trader 1 owns a single trade, the
ledger has fewer than five entries and the recent list is the whole
descending-ordered ledger. -/
theorem recentTrades_take_five_witness :
    (fetchTraderDataOk exDbTrades 1 initState).recentTrades = fetchTrades exDbTrades 1 :=
  (recentTrades_take_five exDbTrades 1 initState).2.2.2.1 (by
    simp [fetchTrades, exDbTrades])

/-- Upper-casing a character does not change whether it is whitespace. -/
theorem isWs_jsCharToUpper (c : Char) : isWs (jsCharToUpper c) = isWs c := by
  unfold jsCharToUpper
  split <;> rfl

/-- Trimming commutes with upper-casing, because upper-casing preserves
the whitespace test. -/
theorem jsTrim_jsToUpper (s : List Char) : jsTrim (jsToUpper s) = jsToUpper (jsTrim s) := by
  have hcomp : (isWs ∘ jsCharToUpper) = isWs := funext isWs_jsCharToUpper
  unfold jsTrim jsToUpper
  simp [List.dropWhile_map, hcomp, ← List.map_reverse]

/-- C6: trader-code lookup is case-insensitive — the entered code is
upper-cased (after trimming) before matching, so any two inputs whose
upper-casings agree (in particular, inputs differing only in letter
case) produce the same lookup result. -/
theorem lookupTrader_case_insensitive (db : DB) (c1 c2 : List Char)
    (h : jsToUpper c1 = jsToUpper c2) :
    lookupTrader db c1 = lookupTrader db c2 := by
  unfold lookupTrader normalizeCode
  rw [← jsTrim_jsToUpper, ← jsTrim_jsToUpper, h]

/-- Witness for C6: the codes abc12345 and ABC12345 give the same lookup
result, and both resolve to the example trader. -/
theorem lookupTrader_case_insensitive_witness :
    lookupTrader exDbFree "abc12345".data = lookupTrader exDbFree "ABC12345".data ∧
    lookupTrader exDbFree "ABC12345".data = Except.ok (some exTrader) :=
  ⟨lookupTrader_case_insensitive exDbFree "abc12345".data "ABC12345".data (by decide),
   rfl⟩

/-- C3: when the entered code is non-empty and resolves to an existing
user with role trader, and the investor holds no binding, the request
succeeds: exactly one binding row with status `pending` is appended, and
the component exposes the pending binding (bound trader set, binding
status `pending`). -/
theorem requestBinding_success (db : DB) (s : DashState) (investorId : Nat) (trader : User)
    (hne : (jsTrim s.traderUid).isEmpty = false)
    (hlook : maybeSingle (usersMatching db (normalizeCode s.traderUid)) =
      Except.ok (some trader))
    (hfree : db.bindings.any (fun b => b.investor_id == investorId) = false) :
    handleBindingRequest db s investorId false Option.none =
      { outcome := Outcome.success
        db := { db with bindings := db.bindings ++
          [{ investor_id := investorId, trader_id := trader.id,
             status := BindingStatus.pending }] }
        state := { s with boundTrader := some trader,
                          bindingStatus := BindingView.pending, traderUid := [] }
        trace := [Query.lookupTrader (normalizeCode s.traderUid),
                  Query.insertBinding trader.id investorId] } := by
  simp [handleBindingRequest, dbInsertBinding, hne, hlook, hfree]

/-- Witness for C3: investor 7 with the fresh store and entered code
abc12345 succeeds, appending the single pending binding to trader 1. -/
theorem requestBinding_success_witness :
    handleBindingRequest exDbFree (exState "abc12345".data) 7 false Option.none =
      { outcome := Outcome.success
        db := { exDbFree with bindings := exDbFree.bindings ++
          [{ investor_id := 7, trader_id := exTrader.id,
             status := BindingStatus.pending }] }
        state := { (exState "abc12345".data) with
          boundTrader := some exTrader,
          bindingStatus := BindingView.pending, traderUid := [] }
        trace := [Query.lookupTrader (normalizeCode (exState "abc12345".data).traderUid),
                  Query.insertBinding exTrader.id 7] } :=
  requestBinding_success exDbFree (exState "abc12345".data) 7 exTrader
    (by decide) rfl (by decide)

/-- C1 (amended): when the investor already holds a binding and the
entered code resolves to an existing trader, the request fails with the
duplicate outcome: the insert is actually attempted (it appears in the
request trace after the lookup) and is rejected by the backing
uniqueness constraint with SQLSTATE 23505 — there is no pre-check — and
neither the store nor the component state changes, so no second binding
is created. -/
theorem requestBinding_duplicate (db : DB) (s : DashState) (investorId : Nat) (trader : User)
    (hne : (jsTrim s.traderUid).isEmpty = false)
    (hlook : maybeSingle (usersMatching db (normalizeCode s.traderUid)) =
      Except.ok (some trader))
    (hdup : db.bindings.any (fun b => b.investor_id == investorId) = true) :
    handleBindingRequest db s investorId false Option.none =
      { outcome := Outcome.duplicateRequestError, db := db, state := s,
        trace := [Query.lookupTrader (normalizeCode s.traderUid),
                  Query.insertBinding trader.id investorId] } ∧
    dbInsertBinding db trader.id investorId =
      Except.error { code := "23505",
                     message := "duplicate key value violates unique constraint" } := by
  constructor
  · simp [handleBindingRequest, dbInsertBinding, hne, hlook, hdup]
  · simp [dbInsertBinding, hdup]

/-- Witness for C1 (amended): bound investor 7 re-requesting with code
abc12345 gets the duplicate outcome from the constraint-rejected
insert, and the store keeps its single binding. -/
theorem requestBinding_duplicate_witness :
    handleBindingRequest exDbBound (exState "abc12345".data) 7 false Option.none =
      { outcome := Outcome.duplicateRequestError, db := exDbBound,
        state := exState "abc12345".data,
        trace := [Query.lookupTrader (normalizeCode (exState "abc12345".data).traderUid),
                  Query.insertBinding exTrader.id 7] } ∧
    dbInsertBinding exDbBound exTrader.id 7 =
      Except.error { code := "23505",
                     message := "duplicate key value violates unique constraint" } :=
  requestBinding_duplicate exDbBound (exState "abc12345".data) 7 exTrader
    (by decide) rfl (by decide)

/-- Counterexample to C1 as stated: investor 7 already holds a binding,
yet a further request whose code (ZZZZ9999) resolves to no trader fails
with the not-found outcome, not the duplicate outcome — the duplicate
failure is not produced regardless of which trader code is supplied. -/
theorem requestBinding_duplicate_counterexample :
    exDbBound.bindings.any (fun b => b.investor_id == 7) = true ∧
    (handleBindingRequest exDbBound (exState "ZZZZ9999".data) 7 false Option.none).outcome =
      Outcome.notFoundError ∧
    (handleBindingRequest exDbBound (exState "ZZZZ9999".data) 7 false Option.none).outcome ≠
      Outcome.duplicateRequestError := by
  decide

/-- C4 (amended): when the entered code is non-empty after trimming and
matches no user with role trader, the request fails with the not-found
outcome, the store and component state are unchanged, and only the
lookup query is issued — no insert is attempted. This holds whether the
lookup query itself fails or merely returns no row. -/
theorem requestBinding_notFound (db : DB) (s : DashState) (investorId : Nat)
    (lookupErr : Bool) (insertErr : Option PgError)
    (hne : (jsTrim s.traderUid).isEmpty = false)
    (hnomatch : usersMatching db (normalizeCode s.traderUid) = []) :
    handleBindingRequest db s investorId lookupErr insertErr =
      { outcome := Outcome.notFoundError, db := db, state := s,
        trace := [Query.lookupTrader (normalizeCode s.traderUid)] } := by
  cases lookupErr <;>
    simp [handleBindingRequest, hne, hnomatch, maybeSingle]

/-- Witness for C4 (amended): the non-empty code ZZZZ9999 matches no
trader in the fresh store, so the request returns not-found, changes
nothing, and issues only the lookup. -/
theorem requestBinding_notFound_witness :
    handleBindingRequest exDbFree (exState "ZZZZ9999".data) 7 false Option.none =
      { outcome := Outcome.notFoundError, db := exDbFree,
        state := exState "ZZZZ9999".data,
        trace := [Query.lookupTrader (normalizeCode (exState "ZZZZ9999".data).traderUid)] } :=
  requestBinding_notFound exDbFree (exState "ZZZZ9999".data) 7 false Option.none
    (by decide) (by decide)

/-- Counterexample to C4 as stated: the empty code matches no user with
role trader, yet the request fails with the validation outcome, not the
not-found outcome — the handler rejects empty input before the lookup. -/
theorem requestBinding_notFound_counterexample :
    usersMatching exDbFree (normalizeCode (exState []).traderUid) = [] ∧
    (handleBindingRequest exDbFree (exState []) 7 false Option.none).outcome =
      Outcome.validationError ∧
    (handleBindingRequest exDbFree (exState []) 7 false Option.none).outcome ≠
      Outcome.notFoundError := by
  decide

/-- C8 (amended): when the entered code is empty after trimming, the
request fails with the validation outcome before any network request:
the trace is empty (no lookup, no insert) and nothing changes. Non-empty
malformed codes are not rejected locally; they proceed to the lookup. -/
theorem requestBinding_validation (db : DB) (s : DashState) (investorId : Nat)
    (lookupErr : Bool) (insertErr : Option PgError)
    (h : (jsTrim s.traderUid).isEmpty = true) :
    handleBindingRequest db s investorId lookupErr insertErr =
      { outcome := Outcome.validationError, db := db, state := s, trace := [] } := by
  simp [handleBindingRequest, h]

/-- Witness for C8 (amended): whitespace-only input fails validation
with an empty request trace. -/
theorem requestBinding_validation_witness :
    handleBindingRequest exDbFree (exState [' ']) 7 false Option.none =
      { outcome := Outcome.validationError, db := exDbFree, state := exState [' '],
        trace := [] } :=
  requestBinding_validation exDbFree (exState [' ']) 7 false Option.none (by decide)

/-- Counterexample to C8 as stated: the malformed single-character code
A (not an 8-character code) is not rejected by validation — the handler
issues the lookup query for it and fails with the not-found outcome. -/
theorem requestBinding_validation_counterexample :
    (handleBindingRequest exDbFree (exState ['A']) 7 false Option.none).trace =
      [Query.lookupTrader ['A']] ∧
    (handleBindingRequest exDbFree (exState ['A']) 7 false Option.none).outcome =
      Outcome.notFoundError ∧
    (handleBindingRequest exDbFree (exState ['A']) 7 false Option.none).outcome ≠
      Outcome.validationError := by
  decide

/-- C10: every failed request — validation, lookup, duplicate insert or
other insert error — leaves the component state unchanged (binding
status, bound trader and the entered code keep their values) and the
store unchanged; only a successful request transitions the binding
status to `pending` (and clears the entered code). -/
theorem requestBinding_failure_preserves_state (db : DB) (s : DashState) (investorId : Nat)
    (lookupErr : Bool) (insertErr : Option PgError) :
    ((handleBindingRequest db s investorId lookupErr insertErr).outcome ≠ Outcome.success →
      (handleBindingRequest db s investorId lookupErr insertErr).state = s ∧
      (handleBindingRequest db s investorId lookupErr insertErr).db = db) ∧
    ((handleBindingRequest db s investorId lookupErr insertErr).outcome = Outcome.success →
      (handleBindingRequest db s investorId lookupErr insertErr).state.bindingStatus =
        BindingView.pending ∧
      (handleBindingRequest db s investorId lookupErr insertErr).state.traderUid = []) := by
  simp only [handleBindingRequest]
  split
  · simp
  · split
    · simp
    · simp
    · split
      · split
        · simp
        · simp
      · simp

/-- Witness for C10: the failing not-found request on code ZZZZ9999
leaves the component state and the store exactly as they were. -/
theorem requestBinding_failure_preserves_state_witness :
    (handleBindingRequest exDbFree (exState "ZZZZ9999".data) 7 false Option.none).state =
      exState "ZZZZ9999".data ∧
    (handleBindingRequest exDbFree (exState "ZZZZ9999".data) 7 false Option.none).db =
      exDbFree :=
  (requestBinding_failure_preserves_state exDbFree (exState "ZZZZ9999".data) 7 false
    Option.none).1 (by decide)

end InvestorDashboard
